import Mathlib

/-!
# Verification of the STM32_XPD DMA driver (src/STM32F0_XPD/src/xpd_dma.c)

Shallow embedding of the DMA channel driver: register state is modelled as a
structure of fields mirroring the channel register block (CCR bit fields,
CNDTR, CPAR, CMAR) together with the channel's interrupt-flag group, the
handle's accumulated error bitmask, and the callback slots.  Machine
registers hold natural numbers truncated at write time, matching the C
bit-field assignments.  The interrupt-delivery and hardware environment
(flag snapshots, the monotonic timer, polled register readings) is passed
explicitly as inputs, and callback invocations are recorded as an emitted
event list.  Critical-section entry/exit protects the sequential code from
interrupt interleaving and has no further effect in this sequential model,
so it is not represented.
-/

namespace STM32XPD

/-- `XPD_ReturnType`: the driver's result taxonomy (xpd_common.h usage in xpd_dma.c). -/
inductive XPD_ReturnType where
  | OK
  | ERROR
  | TIMEOUT
  | BUSY
deriving DecidableEq, Repr

open XPD_ReturnType

/-- `DMA_ERROR_NONE`: empty error bitmask. -/
def DMA_ERROR_NONE : Nat := 0

/-- `DMA_ERROR_TRANSFER`: transfer-error bit of the error bitmask. -/
def DMA_ERROR_TRANSFER : Nat := 1

/-- `DMA_ABORT_TIMEOUT` (xpd_dma.c line 31). -/
def DMA_ABORT_TIMEOUT : Nat := 1000

/-- `DMA_CCR_EN`: mask of the channel-enable bit (bit 0) in the CCR register. -/
def DMA_CCR_EN : Nat := 1

/-- One DMA channel's register block (`DMA_Channel_TypeDef`): the CCR control
bit fields, the data-count register CNDTR, the peripheral and memory address
registers CPAR/CMAR, plus this channel's slice of the controller's shared
interrupt status flags (ISR bits HT/TC/TE at the channel's offset). -/
structure DMA_Channel where
  EN      : Bool
  CIRC    : Bool
  HTIE    : Bool
  TCIE    : Bool
  TEIE    : Bool
  DIR     : Bool
  MEM2MEM : Bool
  PINC    : Bool
  MINC    : Bool
  PL      : Nat
  PSIZE   : Nat
  MSIZE   : Nat
  CNDTR   : Nat
  CPAR    : Nat
  CMAR    : Nat
  flagHT  : Bool
  flagTC  : Bool
  flagTE  : Bool
deriving DecidableEq, Repr

/-- Which of the three callback slots of a handle are registered (non-null).
Invocation through `XPD_SAFE_CALLBACK` is recorded as an emitted event;
an unregistered slot emits nothing (the safe-callback no-op). -/
structure DMA_CallbacksType where
  HalfComplete : Bool
  Complete     : Bool
  Error        : Bool
deriving DecidableEq, Repr

/-- `DMA_HandleType`: channel instance address, the register block it points
to, the cached addressing computed by `dma_calcBase`, the accumulated error
bitmask and the callback slots. -/
structure DMA_HandleType where
  InstAddr      : Nat
  Inst          : DMA_Channel
  Base          : Nat
  ChannelOffset : Nat
  Errors        : Nat
  Callbacks     : DMA_CallbacksType
deriving DecidableEq, Repr

/-- `DataStreamType`: the (buffer, length) pair handed to `Start`. -/
structure DataStreamType where
  buffer : Nat
  length : Nat
deriving DecidableEq, Repr

/-- `DMA_CHANNEL_NUMBER` (xpd_dma.c line 39): channel index from the
instance address, `((addr & 0xFF) - 8) / 20`. -/
def DMA_CHANNEL_NUMBER (addr : Nat) : Nat := (addr % 256 - 8) / 20

/-- `XPD_DMA_Enable` (xpd_dma.c line 144): set the CCR.EN bit. -/
def XPD_DMA_Enable (hdma : DMA_HandleType) : DMA_HandleType :=
  { hdma with Inst := { hdma.Inst with EN := true } }

/-- `XPD_DMA_Disable` (xpd_dma.c line 153): clear the CCR.EN bit. -/
def XPD_DMA_Disable (hdma : DMA_HandleType) : DMA_HandleType :=
  { hdma with Inst := { hdma.Inst with EN := false } }

/-- `XPD_DMA_GetStatus` (xpd_dma.c line 276): BUSY iff the enable bit is set
and the remaining length is nonzero, OK otherwise.  Pure: reads only. -/
def XPD_DMA_GetStatus (hdma : DMA_HandleType) : XPD_ReturnType :=
  if hdma.Inst.EN = true ∧ hdma.Inst.CNDTR > 0 then BUSY else OK

/-- `XPD_DMA_Start` (xpd_dma.c line 175).  If the requested peripheral
address differs from the latched CPAR, the busy status is checked first; on
an OK result the channel is disabled, CPAR/CNDTR/CMAR are written, the error
state is reset and the channel is enabled.  The critical section wraps the
whole sequence and is invisible in this sequential model. -/
def XPD_DMA_Start (hdma : DMA_HandleType) (PeriphAddress : Nat)
    (DataStream : DataStreamType) : XPD_ReturnType × DMA_HandleType :=
  let result := if PeriphAddress ≠ hdma.Inst.CPAR then XPD_DMA_GetStatus hdma else OK
  if result = OK then
    let h1 := XPD_DMA_Disable hdma
    let h2 := { h1 with
      Inst := { h1.Inst with
        CPAR := PeriphAddress
        CNDTR := DataStream.length
        CMAR := DataStream.buffer }
      Errors := DMA_ERROR_NONE }
    (OK, XPD_DMA_Enable h2)
  else
    (result, hdma)

/-- C1: Start on a busy channel with a different peripheral address returns
BUSY and leaves the handle (all registers CPAR, CNDTR, CMAR, CCR, and the
error state) unchanged. -/
theorem start_busy_different_address (hdma : DMA_HandleType) (addr : Nat)
    (ds : DataStreamType) (haddr : addr ≠ hdma.Inst.CPAR)
    (hbusy : XPD_DMA_GetStatus hdma = BUSY) :
    XPD_DMA_Start hdma addr ds = (BUSY, hdma) := by
  simp [XPD_DMA_Start, haddr, hbusy]

/-- An idle channel register block: everything cleared. -/
def idleChannel : DMA_Channel :=
  { EN := false, CIRC := false, HTIE := false, TCIE := false, TEIE := false
    DIR := false, MEM2MEM := false, PINC := false, MINC := false
    PL := 0, PSIZE := 0, MSIZE := 0, CNDTR := 0, CPAR := 0, CMAR := 0
    flagHT := false, flagTC := false, flagTE := false }

/-- A busy channel: enabled, 5 units left, armed for peripheral address 100. -/
def busyHandle : DMA_HandleType :=
  { InstAddr := 1073872904
    Inst := { idleChannel with EN := true, CNDTR := 5, CPAR := 100 }
    Base := 0, ChannelOffset := 0, Errors := 0
    Callbacks := { HalfComplete := false, Complete := false, Error := false } }

/-- C1 witness: redirecting the concrete busy channel to peripheral 7. -/
theorem start_busy_different_address_witness :
    XPD_DMA_Start busyHandle 7 { buffer := 0, length := 4 } = (BUSY, busyHandle) :=
  start_busy_different_address busyHandle 7 { buffer := 0, length := 4 }
    (by decide) (by decide)

/-- C2: Start with the peripheral address already latched in CPAR performs no
busy check and succeeds unconditionally (the hypothesis is only on the
address, never on the busy state): the channel ends up enabled with the
peripheral address, length and memory address written, the error state reset
to NONE, and the result is OK.  (The disable happens before the register
writes and the enable after; the final state shown is the net effect.) -/
theorem start_same_address_always_ok (hdma : DMA_HandleType) (addr : Nat)
    (ds : DataStreamType) (haddr : addr = hdma.Inst.CPAR) :
    XPD_DMA_Start hdma addr ds =
      (OK, { hdma with
        Inst := { hdma.Inst with
          EN := true, CPAR := addr, CNDTR := ds.length, CMAR := ds.buffer }
        Errors := DMA_ERROR_NONE }) := by
  simp [XPD_DMA_Start, haddr, XPD_DMA_Disable, XPD_DMA_Enable]

/-- C2 witness: re-arming the concrete busy channel at its own latched
peripheral address 100 succeeds even though it is busy. -/
theorem start_same_address_always_ok_witness :
    XPD_DMA_Start busyHandle 100 { buffer := 8, length := 4 } =
      (OK, { busyHandle with
        Inst := { busyHandle.Inst with
          EN := true, CPAR := 100, CNDTR := 4, CMAR := 8 }
        Errors := DMA_ERROR_NONE }) :=
  start_same_address_always_ok busyHandle 100 { buffer := 8, length := 4 } (by decide)

/-- C8: GetStatus returns BUSY iff the enable bit is set and CNDTR is
nonzero, and OK in every other case.  (It is a pure function of the handle,
so it modifies no state by construction.) -/
theorem getStatus_busy_iff (hdma : DMA_HandleType) :
    (XPD_DMA_GetStatus hdma = BUSY ↔ hdma.Inst.EN = true ∧ hdma.Inst.CNDTR > 0) ∧
    (¬(hdma.Inst.EN = true ∧ hdma.Inst.CNDTR > 0) → XPD_DMA_GetStatus hdma = OK) := by
  unfold XPD_DMA_GetStatus
  by_cases h : hdma.Inst.EN = true ∧ hdma.Inst.CNDTR > 0 <;> simp [h]

/-- C8 witness: the concrete busy channel is reported BUSY because its enable
bit is set and its remaining length is 5. -/
theorem getStatus_busy_iff_witness :
    XPD_DMA_GetStatus busyHandle = BUSY :=
  (getStatus_busy_iff busyHandle).1.mpr (by decide)

/-- Modelled from the spec: the bounded-wait primitive (`XPD_WaitForMatch`
of xpd_utils, declared in headers but not under src/): polls successive
register readings while monitoring and decrementing the remaining timeout
budget, returning OK as soon as the masked reading equals the expected
value and TIMEOUT once the budget is exhausted.  The reading sequence is the
hardware environment; the remaining budget is returned alongside the
result. -/
def XPD_WaitForMatch (readings : Nat → Nat) (mask value : Nat) :
    Nat → Nat → XPD_ReturnType × Nat
  | _, 0 => (TIMEOUT, 0)
  | i, b + 1 =>
    if readings i &&& mask = value then (OK, b + 1)
    else XPD_WaitForMatch readings mask value (i + 1) b

/-- `XPD_DMA_Stop` (xpd_dma.c line 240): disable the channel, then wait,
bounded by `DMA_ABORT_TIMEOUT`, for the enable bit of the CCR register to
read back as 0.  `readings i` is the i-th hardware readback of CCR. -/
def XPD_DMA_Stop (hdma : DMA_HandleType) (readings : Nat → Nat) :
    XPD_ReturnType × DMA_HandleType :=
  let h1 := XPD_DMA_Disable hdma
  ((XPD_WaitForMatch readings DMA_CCR_EN 0 0 DMA_ABORT_TIMEOUT).1, h1)

theorem waitForMatch_result_cases (readings : Nat → Nat) (mask value : Nat) :
    ∀ b i, (XPD_WaitForMatch readings mask value i b).1 = OK ∨
      (XPD_WaitForMatch readings mask value i b).1 = TIMEOUT := by
  intro b
  induction b with
  | zero => intro i; right; rfl
  | succ b ih =>
    intro i
    by_cases h : readings i &&& mask = value
    · left; simp [XPD_WaitForMatch, h]
    · rw [XPD_WaitForMatch]; simp only [if_neg h]; exact ih (i + 1)

theorem waitForMatch_timeout_iff (readings : Nat → Nat) (mask value : Nat) :
    ∀ b i, (XPD_WaitForMatch readings mask value i b).1 = TIMEOUT ↔
      ∀ j < b, readings (i + j) &&& mask ≠ value := by
  intro b
  induction b with
  | zero => intro i; simp [XPD_WaitForMatch]
  | succ b ih =>
    intro i
    by_cases h : readings i &&& mask = value
    · rw [XPD_WaitForMatch]
      simp only [if_pos h]
      constructor
      · intro hc; exact absurd hc (by simp)
      · intro hall; exact absurd h (by simpa using hall 0 (Nat.succ_pos b))
    · rw [XPD_WaitForMatch]
      simp only [if_neg h]
      rw [ih (i + 1)]
      constructor
      · intro hall j hj
        match j, hj with
        | 0, _ => simpa using h
        | k + 1, hk =>
          have := hall k (by omega)
          simpa [Nat.add_assoc, Nat.add_comm 1 k] using this
      · intro hall j hj
        have := hall (j + 1) (by omega)
        simpa [Nat.add_assoc, Nat.add_comm 1 j] using this

/-- C7: Stop clears the enable bit, and the wait result is TIMEOUT exactly
when every readback within the 1000-unit budget still shows the enable bit
set, OK exactly when some readback within the budget shows it cleared; a
channel whose very first readback already shows the bit cleared yields OK
with the full budget unconsumed. -/
theorem stop_bounded_wait (hdma : DMA_HandleType) (readings : Nat → Nat) :
    (XPD_DMA_Stop hdma readings).2 = XPD_DMA_Disable hdma ∧
    ((XPD_DMA_Stop hdma readings).1 = TIMEOUT ↔
      ∀ i < DMA_ABORT_TIMEOUT, readings i &&& DMA_CCR_EN ≠ 0) ∧
    ((XPD_DMA_Stop hdma readings).1 = OK ↔
      ∃ i < DMA_ABORT_TIMEOUT, readings i &&& DMA_CCR_EN = 0) ∧
    (readings 0 &&& DMA_CCR_EN = 0 →
      XPD_WaitForMatch readings DMA_CCR_EN 0 0 DMA_ABORT_TIMEOUT =
        (OK, DMA_ABORT_TIMEOUT)) := by
  refine ⟨rfl, ?_, ?_, ?_⟩
  · have := waitForMatch_timeout_iff readings DMA_CCR_EN 0 DMA_ABORT_TIMEOUT 0
    simpa [XPD_DMA_Stop] using this
  · have hto := waitForMatch_timeout_iff readings DMA_CCR_EN 0 DMA_ABORT_TIMEOUT 0
    have hcases := waitForMatch_result_cases readings DMA_CCR_EN 0 DMA_ABORT_TIMEOUT 0
    constructor
    · intro hok
      have : ¬ (XPD_WaitForMatch readings DMA_CCR_EN 0 0 DMA_ABORT_TIMEOUT).1 = TIMEOUT := by
        simp [XPD_DMA_Stop] at hok
        rw [hok]; simp
      rw [hto] at this
      push_neg at this
      obtain ⟨j, hj, hv⟩ := this
      exact ⟨j, hj, by simpa using hv⟩
    · intro ⟨j, hj, hv⟩
      rcases hcases with hok | hto2
      · simpa [XPD_DMA_Stop] using hok
      · rw [hto] at hto2
        exact absurd hv (by simpa using hto2 j hj)
  · intro h0
    show XPD_WaitForMatch readings DMA_CCR_EN 0 0 DMA_ABORT_TIMEOUT = (OK, DMA_ABORT_TIMEOUT)
    rw [show DMA_ABORT_TIMEOUT = 999 + 1 from rfl, XPD_WaitForMatch]
    simp [h0]

/-- C7 witness: stopping the concrete busy channel in an environment whose
CCR readbacks are all 0 returns OK, and the handle's enable bit is cleared. -/
theorem stop_bounded_wait_witness :
    (XPD_DMA_Stop busyHandle (fun _ => 0)).1 = OK ∧
    (XPD_DMA_Stop busyHandle (fun _ => 0)).2.Inst.EN = false :=
  ⟨(stop_bounded_wait busyHandle (fun _ => 0)).2.2.1.mpr ⟨0, by decide, by decide⟩,
   by rw [(stop_bounded_wait busyHandle (fun _ => 0)).1]; rfl⟩

/-- The three per-channel interrupt flag kinds: half-transfer, transfer
complete, transfer error. -/
inductive DMA_FlagType where
  | HT
  | TC
  | TE
deriving DecidableEq, Repr

/-- Modelled from the spec: `XPD_DMA_GetFlag` (macro of xpd_dma.h, not under
src/) reads this channel's interrupt flag from the controller's shared
status register at the channel's flag offset. -/
def XPD_DMA_GetFlag (hdma : DMA_HandleType) : DMA_FlagType → Bool
  | .HT => hdma.Inst.flagHT
  | .TC => hdma.Inst.flagTC
  | .TE => hdma.Inst.flagTE

/-- Modelled from the spec: `XPD_DMA_ClearFlag` (macro of xpd_dma.h, not
under src/) writes the channel's bit in the flag-clear register, clearing
the flag. -/
def XPD_DMA_ClearFlag (hdma : DMA_HandleType) : DMA_FlagType → DMA_HandleType
  | .HT => { hdma with Inst := { hdma.Inst with flagHT := false } }
  | .TC => { hdma with Inst := { hdma.Inst with flagTC := false } }
  | .TE => { hdma with Inst := { hdma.Inst with flagTE := false } }

/-- Modelled from the spec: `XPD_DMA_DisableIT` (macro of xpd_dma.h, not
under src/) clears the matching interrupt-enable bit in the CCR register. -/
def XPD_DMA_DisableIT (hdma : DMA_HandleType) : DMA_FlagType → DMA_HandleType
  | .HT => { hdma with Inst := { hdma.Inst with HTIE := false } }
  | .TC => { hdma with Inst := { hdma.Inst with TCIE := false } }
  | .TE => { hdma with Inst := { hdma.Inst with TEIE := false } }

/-- Observable callback invocations of the interrupt dispatcher. -/
inductive DMA_CallbackEvent where
  | halfComplete
  | complete
  | error
deriving DecidableEq, Repr

/-- Modelled from the spec: `XPD_SAFE_CALLBACK` — invoking an unset slot is
a no-op; a set slot's invocation is recorded as an emitted event. -/
def XPD_SAFE_CALLBACK (registered : Bool) (ev : DMA_CallbackEvent) :
    List DMA_CallbackEvent :=
  if registered then [ev] else []

/-- `XPD_DMA_IRQHandler` (xpd_dma.c line 342), with the error-detection
section compiled in (USE_XPD_DMA_ERROR_DETECT).  Returns the new handle
state together with the list of callback invocations in program order. -/
def XPD_DMA_IRQHandler (hdma : DMA_HandleType) :
    DMA_HandleType × List DMA_CallbackEvent :=
  /- Half Transfer Complete interrupt management -/
  let s1 :=
    if XPD_DMA_GetFlag hdma .HT then
      let ha := XPD_DMA_ClearFlag hdma .HT
      let hb := if ha.Inst.CIRC = false then XPD_DMA_DisableIT ha .HT else ha
      (hb, XPD_SAFE_CALLBACK hb.Callbacks.HalfComplete .halfComplete)
    else (hdma, [])
  /- Transfer Complete interrupt management -/
  let s2 :=
    if XPD_DMA_GetFlag s1.1 .TC then
      let ha := XPD_DMA_ClearFlag s1.1 .TC
      let hb := if ha.Inst.CIRC = false then XPD_DMA_DisableIT ha .TC else ha
      (hb, XPD_SAFE_CALLBACK hb.Callbacks.Complete .complete)
    else (s1.1, [])
  /- Transfer Error interrupt management -/
  let s3 :=
    if XPD_DMA_GetFlag s2.1 .TE then
      let ha := XPD_DMA_ClearFlag s2.1 .TE
      ({ ha with Errors := ha.Errors ||| DMA_ERROR_TRANSFER },
        XPD_SAFE_CALLBACK ha.Callbacks.Error .error)
    else (s2.1, [])
  (s3.1, s1.2 ++ s2.2 ++ s3.2)

/-- C3: one dispatch call fires every applicable sub-handler.  If the
half-transfer flag is set it is cleared, the half-transfer interrupt source
is disabled exactly when the mode is not circular (left unchanged in
circular mode), and the half-complete callback fires iff registered;
symmetrically for transfer complete; with both flags set in non-circular
mode the event list starts with half-complete then complete and both
interrupt-enable bits end disabled, while in circular mode neither
interrupt-enable bit changes. -/
theorem irq_dispatch_fires_all_subhandlers (hdma : DMA_HandleType) :
    (hdma.Inst.flagHT = true →
      (XPD_DMA_IRQHandler hdma).1.Inst.flagHT = false ∧
      (hdma.Inst.CIRC = false → (XPD_DMA_IRQHandler hdma).1.Inst.HTIE = false) ∧
      (hdma.Inst.CIRC = true →
        (XPD_DMA_IRQHandler hdma).1.Inst.HTIE = hdma.Inst.HTIE) ∧
      (hdma.Callbacks.HalfComplete = true →
        DMA_CallbackEvent.halfComplete ∈ (XPD_DMA_IRQHandler hdma).2) ∧
      (hdma.Callbacks.HalfComplete = false →
        DMA_CallbackEvent.halfComplete ∉ (XPD_DMA_IRQHandler hdma).2)) ∧
    (hdma.Inst.flagTC = true →
      (XPD_DMA_IRQHandler hdma).1.Inst.flagTC = false ∧
      (hdma.Inst.CIRC = false → (XPD_DMA_IRQHandler hdma).1.Inst.TCIE = false) ∧
      (hdma.Inst.CIRC = true →
        (XPD_DMA_IRQHandler hdma).1.Inst.TCIE = hdma.Inst.TCIE) ∧
      (hdma.Callbacks.Complete = true →
        DMA_CallbackEvent.complete ∈ (XPD_DMA_IRQHandler hdma).2) ∧
      (hdma.Callbacks.Complete = false →
        DMA_CallbackEvent.complete ∉ (XPD_DMA_IRQHandler hdma).2)) ∧
    (hdma.Inst.flagHT = true → hdma.Inst.flagTC = true → hdma.Inst.CIRC = false →
      hdma.Callbacks.HalfComplete = true → hdma.Callbacks.Complete = true →
      (XPD_DMA_IRQHandler hdma).2.take 2 =
        [DMA_CallbackEvent.halfComplete, DMA_CallbackEvent.complete] ∧
      (XPD_DMA_IRQHandler hdma).1.Inst.HTIE = false ∧
      (XPD_DMA_IRQHandler hdma).1.Inst.TCIE = false) ∧
    (hdma.Inst.CIRC = true →
      (XPD_DMA_IRQHandler hdma).1.Inst.HTIE = hdma.Inst.HTIE ∧
      (XPD_DMA_IRQHandler hdma).1.Inst.TCIE = hdma.Inst.TCIE) := by
  obtain ⟨ia, inst, b, co, er, cb⟩ := hdma
  obtain ⟨en, circ, htie, tcie, teie, dir, m2m, pinc, minc, pl, ps, ms,
    cndtr, cpar, cmar, fht, ftc, fte⟩ := inst
  obtain ⟨cbh, cbc, cbe⟩ := cb
  cases fht <;> cases ftc <;> cases fte <;> cases circ <;>
    cases cbh <;> cases cbc <;> cases cbe <;>
    simp [XPD_DMA_IRQHandler, XPD_DMA_GetFlag, XPD_DMA_ClearFlag,
      XPD_DMA_DisableIT, XPD_SAFE_CALLBACK]

/-- A channel in circular mode with both completion flags and all callbacks
set: used to witness the dispatcher claims. -/
def circBothFlagsHandle : DMA_HandleType :=
  { InstAddr := 1073872904
    Inst := { idleChannel with
      EN := true, CIRC := true, HTIE := true, TCIE := true, TEIE := true
      CNDTR := 2, flagHT := true, flagTC := true }
    Base := 1073872896, ChannelOffset := 0, Errors := 0
    Callbacks := { HalfComplete := true, Complete := true, Error := true } }

/-- C3 witness: on a concrete non-circular channel with both flags set and
both callbacks registered, dispatch emits half-complete before complete and
disables both interrupt-enable bits. -/
theorem irq_dispatch_fires_all_subhandlers_witness :
    (XPD_DMA_IRQHandler { circBothFlagsHandle with
        Inst := { circBothFlagsHandle.Inst with CIRC := false } }).2.take 2 =
      [DMA_CallbackEvent.halfComplete, DMA_CallbackEvent.complete] ∧
    (XPD_DMA_IRQHandler { circBothFlagsHandle with
        Inst := { circBothFlagsHandle.Inst with CIRC := false } }).1.Inst.HTIE = false ∧
    (XPD_DMA_IRQHandler { circBothFlagsHandle with
        Inst := { circBothFlagsHandle.Inst with CIRC := false } }).1.Inst.TCIE = false :=
  (irq_dispatch_fires_all_subhandlers _).2.2.1
    (by decide) (by decide) (by decide) (by decide) (by decide)

/-- Modelled from the spec: the sentinel timeout value meaning "wait
indefinitely" (`XPD_NO_TIMEOUT` of xpd_utils.h, not under src/). -/
def XPD_NO_TIMEOUT : Nat := 4294967295

/-- Wraparound-safe elapsed-tick computation on the 32-bit monotonic timer:
`now - tickstart` in uint32 arithmetic. -/
def tickDiff (now tickstart : Nat) : Nat :=
  (now % 4294967296 + (4294967296 - tickstart % 4294967296)) % 4294967296

/-- `DMA_OperationType`: which completion event PollStatus awaits. -/
inductive DMA_OperationType where
  | TRANSFER
  | HALF
deriving DecidableEq, Repr

/-- One hardware snapshot seen by a PollStatus loop iteration: the three
interrupt flags and the `XPD_GetTimer()` reading at that instant. -/
structure DMA_FlagsObs where
  HT : Bool
  TC : Bool
  TE : Bool
  timer : Nat
deriving DecidableEq, Repr

/-- The completion flag awaited by the given operation, read from a
snapshot (the loop's `success` condition, xpd_dma.c lines 297-299). -/
def dma_opFlag (Operation : DMA_OperationType) (o : DMA_FlagsObs) : Bool :=
  match Operation with
  | .TRANSFER => o.TC
  | .HALF => o.HT

/-- Result of a PollStatus call: return code, the handle's error bitmask on
exit, and the flag-clear writes issued, in program order. -/
structure DMA_PollOutcome where
  result : XPD_ReturnType
  Errors : Nat
  cleared : List DMA_FlagType
deriving DecidableEq, Repr

/-- The PollStatus loop (xpd_dma.c lines 297-325) over a sequence of
hardware snapshots, one per iteration; `none` when the snapshot sequence is
exhausted while still waiting (the loop would keep spinning). -/
def dma_pollLoop (Operation : DMA_OperationType) (Timeout tickstart Errors : Nat) :
    List DMA_FlagsObs → Option DMA_PollOutcome
  | [] => none
  | o :: rest =>
    if dma_opFlag Operation o then
      some { result := OK, Errors := Errors
             cleared := if Operation = .TRANSFER then [.TC, .HT] else [.HT] }
    else if o.TE then
      some { result := ERROR, Errors := Errors ||| DMA_ERROR_TRANSFER, cleared := [.TE] }
    else if Timeout ≠ XPD_NO_TIMEOUT ∧ tickDiff o.timer tickstart > Timeout then
      some { result := TIMEOUT, Errors := Errors, cleared := [] }
    else
      dma_pollLoop Operation Timeout tickstart Errors rest

/-- `XPD_DMA_PollStatus` (xpd_dma.c line 288): `tickstart` is the timer
reading taken on entry, `obs` the per-iteration hardware snapshots. -/
def XPD_DMA_PollStatus (hdma : DMA_HandleType) (Operation : DMA_OperationType)
    (Timeout tickstart : Nat) (obs : List DMA_FlagsObs) : Option DMA_PollOutcome :=
  dma_pollLoop Operation Timeout tickstart hdma.Errors obs

theorem pollLoop_outcome_shape (Operation : DMA_OperationType)
    (Timeout tickstart Errors : Nat) :
    ∀ obs out, dma_pollLoop Operation Timeout tickstart Errors obs = some out →
      (out.result = ERROR → out.Errors = Errors ||| DMA_ERROR_TRANSFER ∧
        out.cleared = [DMA_FlagType.TE]) ∧
      (out.result ≠ ERROR → out.Errors = Errors) ∧
      (out.result = TIMEOUT → out.cleared = []) ∧
      (out.result = OK →
        out.cleared = if Operation = DMA_OperationType.TRANSFER
          then [DMA_FlagType.TC, DMA_FlagType.HT] else [DMA_FlagType.HT]) := by
  intro obs
  induction obs with
  | nil => intro out h; exact absurd h (by simp [dma_pollLoop])
  | cons o rest ih =>
    intro out h
    rw [dma_pollLoop] at h
    by_cases h1 : dma_opFlag Operation o
    · rw [if_pos h1] at h
      obtain rfl := Option.some.inj h
      simp
    · rw [if_neg h1] at h
      by_cases h2 : o.TE
      · rw [if_pos h2] at h
        obtain rfl := Option.some.inj h
        simp
      · rw [if_neg h2] at h
        by_cases h3 : Timeout ≠ XPD_NO_TIMEOUT ∧ tickDiff o.timer tickstart > Timeout
        · rw [if_pos h3] at h
          obtain rfl := Option.some.inj h
          simp
        · rw [if_neg h3] at h
          exact ih out h

/-- C5: in any loop iteration whose snapshot lacks the awaited completion
flag but shows the transfer-error flag, PollStatus ORs TRANSFER_ERROR into
the error state, clears exactly the error flag, and returns a failure
immediately (the remaining snapshots are never consumed); a snapshot with
the awaited flag yields OK and clears the observed flag(s), the
transfer-complete case also clearing half-transfer; a snapshot with neither,
once a finite timeout has elapsed, yields TIMEOUT; and globally every ERROR
outcome carries the accumulated error and the error-flag clear while every
other outcome leaves the error state untouched. -/
theorem pollStatus_error_and_completion (hdma : DMA_HandleType)
    (Operation : DMA_OperationType) (Timeout tickstart : Nat)
    (o : DMA_FlagsObs) (rest : List DMA_FlagsObs) :
    (dma_opFlag Operation o = false → o.TE = true →
      XPD_DMA_PollStatus hdma Operation Timeout tickstart (o :: rest) =
        some { result := ERROR, Errors := hdma.Errors ||| DMA_ERROR_TRANSFER
               cleared := [DMA_FlagType.TE] }) ∧
    (dma_opFlag Operation o = true →
      XPD_DMA_PollStatus hdma Operation Timeout tickstart (o :: rest) =
        some { result := OK, Errors := hdma.Errors
               cleared := if Operation = DMA_OperationType.TRANSFER
                 then [DMA_FlagType.TC, DMA_FlagType.HT] else [DMA_FlagType.HT] }) ∧
    (dma_opFlag Operation o = false → o.TE = false → Timeout ≠ XPD_NO_TIMEOUT →
      tickDiff o.timer tickstart > Timeout →
      XPD_DMA_PollStatus hdma Operation Timeout tickstart (o :: rest) =
        some { result := TIMEOUT, Errors := hdma.Errors, cleared := [] }) ∧
    (∀ obs out, XPD_DMA_PollStatus hdma Operation Timeout tickstart obs = some out →
      (out.result = ERROR → out.Errors = hdma.Errors ||| DMA_ERROR_TRANSFER ∧
        out.cleared = [DMA_FlagType.TE]) ∧
      (out.result ≠ ERROR → out.Errors = hdma.Errors)) := by
  refine ⟨?_, ?_, ?_, ?_⟩
  · intro h1 h2
    unfold XPD_DMA_PollStatus
    rw [dma_pollLoop, if_neg (by simp [h1]), if_pos h2]
  · intro h1
    unfold XPD_DMA_PollStatus
    rw [dma_pollLoop, if_pos h1]
  · intro h1 h2 h3 h4
    unfold XPD_DMA_PollStatus
    rw [dma_pollLoop, if_neg (by simp [h1]), if_neg (by simp [h2]), if_pos ⟨h3, h4⟩]
  · intro obs out h
    have := pollLoop_outcome_shape Operation Timeout tickstart hdma.Errors obs out h
    exact ⟨this.1, this.2.1⟩

/-- A snapshot with the transfer-error flag raised and no completion flag. -/
def errorObs : DMA_FlagsObs := { HT := false, TC := false, TE := true, timer := 3 }

/-- C5 witness: polling for transfer completion against a concrete snapshot
showing only the error flag fails with ERROR, accumulates TRANSFER_ERROR
into the (previously clean) error state, and clears only the error flag. -/
theorem pollStatus_error_and_completion_witness :
    XPD_DMA_PollStatus busyHandle DMA_OperationType.TRANSFER 50 0 [errorObs] =
      some { result := ERROR, Errors := DMA_ERROR_TRANSFER
             cleared := [DMA_FlagType.TE] } :=
  (pollStatus_error_and_completion busyHandle DMA_OperationType.TRANSFER 50 0
    errorObs []).1 (by decide) (by decide)

/-- C10: when the awaited completion flag is already set in the very first
snapshot, PollStatus returns OK with the error state untouched and without
clearing the transfer-error flag, even if that flag is simultaneously
set. -/
theorem pollStatus_entry_flag_ignores_error (hdma : DMA_HandleType)
    (Operation : DMA_OperationType) (Timeout tickstart : Nat)
    (o : DMA_FlagsObs) (rest : List DMA_FlagsObs)
    (hflag : dma_opFlag Operation o = true) :
    ∃ out, XPD_DMA_PollStatus hdma Operation Timeout tickstart (o :: rest) = some out ∧
      out.result = OK ∧ out.Errors = hdma.Errors ∧
      DMA_FlagType.TE ∉ out.cleared := by
  have h : XPD_DMA_PollStatus hdma Operation Timeout tickstart (o :: rest) =
      some { result := OK, Errors := hdma.Errors
             cleared := if Operation = DMA_OperationType.TRANSFER
               then [DMA_FlagType.TC, DMA_FlagType.HT] else [DMA_FlagType.HT] } := by
    unfold XPD_DMA_PollStatus
    rw [dma_pollLoop, if_pos hflag]
  refine ⟨_, h, rfl, rfl, ?_⟩
  by_cases hop : Operation = DMA_OperationType.TRANSFER <;> simp [hop]

/-- A snapshot with both the transfer-complete and transfer-error flags
raised at once. -/
def tcAndTeObs : DMA_FlagsObs := { HT := false, TC := true, TE := true, timer := 0 }

/-- C10 witness: entering the poll with transfer-complete and
transfer-error both already set returns OK, keeps the error state clean and
does not clear the error flag. -/
theorem pollStatus_entry_flag_ignores_error_witness :
    ∃ out, XPD_DMA_PollStatus busyHandle DMA_OperationType.TRANSFER 50 0
        [tcAndTeObs] = some out ∧
      out.result = OK ∧ out.Errors = 0 ∧ DMA_FlagType.TE ∉ out.cleared :=
  pollStatus_entry_flag_ignores_error busyHandle DMA_OperationType.TRANSFER 50 0
    tcAndTeObs [] (by decide)

/-- The clock-gating global state of one DMA controller (xpd_dma.c lines
41-52): the `dma_users` channel bitmask (a uint8) and whether the
controller clock is enabled through its `XPD_DMA1_ClockCtrl` collaborator
(idempotent; each controller's registry is independent, so one controller
is modelled). -/
structure DMA_GlobalState where
  dma_users : Nat
  clockOn : Bool
deriving DecidableEq, Repr

/-- The clock-acquisition block of `XPD_DMA_Init` (xpd_dma.c lines 71-78):
SET_BIT of the channel's bit on the uint8 user mask, then enable the
clock. -/
def dma_clockAcquire (g : DMA_GlobalState) (ch : Nat) : DMA_GlobalState :=
  { dma_users := (g.dma_users ||| (1 <<< ch)) % 256, clockOn := true }

/-- The clock-release block of `XPD_DMA_Deinit` (xpd_dma.c lines 126-135):
CLEAR_BIT of the channel's bit on the uint8 user mask; when the mask
reaches zero the clock is disabled. -/
def dma_clockRelease (g : DMA_GlobalState) (ch : Nat) : DMA_GlobalState :=
  let u := g.dma_users &&& (255 ^^^ ((1 <<< ch) % 256))
  { dma_users := u, clockOn := if u = 0 then false else g.clockOn }

/-- Per-direction addressing configuration (`Increment`, `DataAlignment`
sub-fields of `DMA_InitType`). Raw integers: the C fields are enums whose
values are truncated by the bit-field assignments in Init. -/
structure DMA_AddressConfig where
  Increment : Nat
  DataAlignment : Nat
deriving DecidableEq, Repr

/-- `DMA_InitType`: the Init configuration.  Raw integers, as the C enum
fields; Init truncates each to the width of its CCR bit field. -/
structure DMA_InitType where
  Priority : Nat
  Direction : Nat
  Mode : Nat
  Peripheral : DMA_AddressConfig
  Memory : DMA_AddressConfig
deriving DecidableEq, Repr

/-- `XPD_DMA_Init` (xpd_dma.c line 69): acquires the clock, writes the CCR
configuration fields (each truncated to its bit width), zeroes CNDTR and
CPAR, computes the cached addressing via `dma_calcBase`, and returns OK.
There is no validation path in the source. -/
def XPD_DMA_Init (g : DMA_GlobalState) (hdma : DMA_HandleType)
    (Config : DMA_InitType) : XPD_ReturnType × DMA_GlobalState × DMA_HandleType :=
  let g1 := dma_clockAcquire g (DMA_CHANNEL_NUMBER hdma.InstAddr)
  let inst1 := { hdma.Inst with
    PL := Config.Priority % 4
    DIR := Config.Direction % 2 == 1
    CIRC := Config.Mode % 2 == 1
    MEM2MEM := (Config.Direction >>> 1) % 2 == 1
    PINC := Config.Peripheral.Increment % 2 == 1
    PSIZE := Config.Peripheral.DataAlignment % 4
    MINC := Config.Memory.Increment % 2 == 1
    MSIZE := Config.Memory.DataAlignment % 4
    CNDTR := 0
    CPAR := 0 }
  let h1 := { hdma with
    Inst := inst1
    Base := hdma.InstAddr - hdma.InstAddr % 256
    ChannelOffset := DMA_CHANNEL_NUMBER hdma.InstAddr * 4 }
  (OK, g1, h1)

/-- `XPD_DMA_Deinit` (xpd_dma.c line 109): disables the channel, zeroes the
whole CCR, CNDTR, CPAR and CMAR, clears the three interrupt flags, releases
the clock, returns OK. -/
def XPD_DMA_Deinit (g : DMA_GlobalState) (hdma : DMA_HandleType) :
    XPD_ReturnType × DMA_GlobalState × DMA_HandleType :=
  let h1 := XPD_DMA_Disable hdma
  let inst1 : DMA_Channel := { h1.Inst with
    EN := false, CIRC := false, HTIE := false, TCIE := false, TEIE := false
    DIR := false, MEM2MEM := false, PINC := false, MINC := false
    PL := 0, PSIZE := 0, MSIZE := 0
    CNDTR := 0, CPAR := 0, CMAR := 0
    flagHT := false, flagTC := false, flagTE := false }
  let g1 := dma_clockRelease g (DMA_CHANNEL_NUMBER hdma.InstAddr)
  (OK, g1, { h1 with Inst := inst1 })

/-- A channel-lifecycle step on one controller's clock registry: Init or
Deinit of the channel with the given (valid, below 8) channel index. -/
inductive DMA_ClockOp where
  | init (ch : Fin 8)
  | deinit (ch : Fin 8)
deriving DecidableEq, Repr

/-- The registry effect of one Init or Deinit. -/
def dma_clockStep (g : DMA_GlobalState) : DMA_ClockOp → DMA_GlobalState
  | .init ch => dma_clockAcquire g ch.val
  | .deinit ch => dma_clockRelease g ch.val

/-- Run a sequence of Init/Deinit steps on a controller starting from the
boot state: empty user mask, clock disabled. -/
def dma_clockRun (ops : List DMA_ClockOp) : DMA_GlobalState :=
  ops.foldl dma_clockStep { dma_users := 0, clockOn := false }

/-- The number of channels currently holding the controller clock: the
population count of the (8-bit) user mask. -/
def dma_userCount (g : DMA_GlobalState) : Nat :=
  (List.range 8).countP fun i => g.dma_users.testBit i

set_option maxRecDepth 4096 in
theorem dma_userCount_pos_iff :
    ∀ u < 256, (0 < (List.range 8).countP fun i => Nat.testBit u i) ↔ u ≠ 0 := by
  decide

theorem dma_clockStep_preserves (g : DMA_GlobalState) (op : DMA_ClockOp)
    (hlt : g.dma_users < 256) (hiff : g.clockOn = true ↔ g.dma_users ≠ 0) :
    (dma_clockStep g op).dma_users < 256 ∧
    ((dma_clockStep g op).clockOn = true ↔ (dma_clockStep g op).dma_users ≠ 0) := by
  cases op with
  | init ch =>
    refine ⟨Nat.mod_lt _ (by omega), ?_⟩
    simp only [dma_clockStep, dma_clockAcquire]
    have hch : (1 <<< ch.val) < 256 := by
      rw [Nat.one_shiftLeft]
      calc 2 ^ ch.val ≤ 2 ^ 7 := Nat.pow_le_pow_right (by omega) (by omega)
        _ < 256 := by omega
    have hor : (g.dma_users ||| (1 <<< ch.val)) < 256 := by
      have h256 : (256 : Nat) = 2 ^ 8 := rfl
      rw [h256] at hlt hch ⊢
      exact Nat.or_lt_two_pow hlt hch
    rw [Nat.mod_eq_of_lt hor]
    have hbit : (g.dma_users ||| (1 <<< ch.val)).testBit ch.val = true := by
      rw [Nat.testBit_or, Nat.one_shiftLeft, Nat.testBit_two_pow_self, Bool.or_true]
    constructor
    · intro _ hzero
      rw [hzero] at hbit
      simp [Nat.zero_testBit] at hbit
    · intro _; trivial
  | deinit ch =>
    simp only [dma_clockStep, dma_clockRelease]
    have hle : g.dma_users &&& (255 ^^^ ((1 <<< ch.val) % 256)) ≤ g.dma_users :=
      Nat.and_le_left
    refine ⟨by omega, ?_⟩
    by_cases hz : g.dma_users &&& (255 ^^^ ((1 <<< ch.val) % 256)) = 0
    · simp [hz]
    · have husers : g.dma_users ≠ 0 := by
        intro h0; apply hz; rw [h0]; simp [Nat.zero_and]
      simp only [hz, if_neg hz]
      constructor
      · intro _; exact hz
      · intro _; exact hiff.mpr husers

theorem dma_clockFold_invariant (ops : List DMA_ClockOp) :
    ∀ g : DMA_GlobalState, g.dma_users < 256 →
      (g.clockOn = true ↔ g.dma_users ≠ 0) →
      (ops.foldl dma_clockStep g).dma_users < 256 ∧
      ((ops.foldl dma_clockStep g).clockOn = true ↔
        (ops.foldl dma_clockStep g).dma_users ≠ 0) := by
  induction ops with
  | nil => intro g h1 h2; exact ⟨h1, h2⟩
  | cons op rest ih =>
    intro g h1 h2
    have step := dma_clockStep_preserves g op h1 h2
    simpa using ih (dma_clockStep g op) step.1 step.2

theorem dma_clockRun_invariant (ops : List DMA_ClockOp) :
    (dma_clockRun ops).dma_users < 256 ∧
    ((dma_clockRun ops).clockOn = true ↔ (dma_clockRun ops).dma_users ≠ 0) :=
  dma_clockFold_invariant ops { dma_users := 0, clockOn := false }
    (by decide) (by simp)

/-- C4: over every sequence of Init/Deinit steps on a controller's
channels, the count of channels holding the clock never goes negative and
the clock is enabled iff that count is positive; acquiring two distinct
channels and releasing one leaves the clock enabled, releasing both
disables it; and the registry updates are exactly the ones performed by
`XPD_DMA_Init` and `XPD_DMA_Deinit`. -/
theorem clock_gate_invariant :
    (∀ ops : List DMA_ClockOp,
      0 ≤ dma_userCount (dma_clockRun ops) ∧
      ((dma_clockRun ops).clockOn = true ↔ 0 < dma_userCount (dma_clockRun ops))) ∧
    (∀ c1 c2 : Fin 8, c1 ≠ c2 →
      (dma_clockRun [DMA_ClockOp.init c1, DMA_ClockOp.init c2,
        DMA_ClockOp.deinit c1]).clockOn = true ∧
      (dma_clockRun [DMA_ClockOp.init c1, DMA_ClockOp.init c2,
        DMA_ClockOp.deinit c1, DMA_ClockOp.deinit c2]).clockOn = false) ∧
    (∀ g hdma Config, (XPD_DMA_Init g hdma Config).2.1 =
      dma_clockAcquire g (DMA_CHANNEL_NUMBER hdma.InstAddr)) ∧
    (∀ g hdma, (XPD_DMA_Deinit g hdma).2.1 =
      dma_clockRelease g (DMA_CHANNEL_NUMBER hdma.InstAddr)) := by
  refine ⟨?_, ?_, fun _ _ _ => rfl, fun _ _ => rfl⟩
  · intro ops
    obtain ⟨hlt, hiff⟩ := dma_clockRun_invariant ops
    refine ⟨Nat.zero_le _, ?_⟩
    rw [hiff]
    unfold dma_userCount
    exact (dma_userCount_pos_iff _ hlt).symm
  · decide

/-- C4 witness: channels 0 and 1 of the controller; after both Inits and
the first Deinit the clock is still on, after the second Deinit it is
off. -/
theorem clock_gate_invariant_witness :
    (dma_clockRun [DMA_ClockOp.init 0, DMA_ClockOp.init 1,
      DMA_ClockOp.deinit 0]).clockOn = true ∧
    (dma_clockRun [DMA_ClockOp.init 0, DMA_ClockOp.init 1,
      DMA_ClockOp.deinit 0, DMA_ClockOp.deinit 1]).clockOn = false :=
  clock_gate_invariant.2.1 0 1 (by decide)

/-- Well-formedness of an Init configuration, following the spec's words
("malformed config" precondition): every enum-typed field within its range
— priority one of 4 levels, direction one of the 3 transfer directions,
single-shot or circular mode, boolean increments, byte/halfword/word
alignments.  The source defines no such check; this is the spec-side notion
needed to state the rejection claim. -/
def DMA_ConfigWellFormed (Config : DMA_InitType) : Prop :=
  Config.Priority < 4 ∧ Config.Direction < 3 ∧ Config.Mode < 2 ∧
  Config.Peripheral.Increment < 2 ∧ Config.Peripheral.DataAlignment < 3 ∧
  Config.Memory.Increment < 2 ∧ Config.Memory.DataAlignment < 3

/-- A malformed configuration: direction code 5 names no transfer
direction. -/
def malformedConfig : DMA_InitType :=
  { Priority := 0, Direction := 5, Mode := 0
    Peripheral := { Increment := 0, DataAlignment := 0 }
    Memory := { Increment := 0, DataAlignment := 0 } }

/-- C9 counterexample: the configuration with out-of-range direction code 5
is malformed in the spec's sense, yet Init accepts it and returns OK — the
source contains no rejection path at all. -/
theorem init_accepts_malformed_config :
    ¬ DMA_ConfigWellFormed malformedConfig ∧
    (XPD_DMA_Init { dma_users := 0, clockOn := false } busyHandle
      malformedConfig).1 = OK := by
  constructor
  · intro h
    have h5 : (5 : Nat) < 3 := by simpa [malformedConfig] using h.2.1
    omega
  · rfl

/-- C9 amended: Init never fails — for every configuration, malformed ones
included, it returns OK after acquiring the clock, writing the control
fields, zeroing the length and peripheral-address registers and computing
the cached addressing. -/
theorem init_always_ok (g : DMA_GlobalState) (hdma : DMA_HandleType)
    (Config : DMA_InitType) :
    (XPD_DMA_Init g hdma Config).1 = OK ∧
    (XPD_DMA_Init g hdma Config).2.1 =
      dma_clockAcquire g (DMA_CHANNEL_NUMBER hdma.InstAddr) ∧
    (XPD_DMA_Init g hdma Config).2.2.Inst.CNDTR = 0 ∧
    (XPD_DMA_Init g hdma Config).2.2.Inst.CPAR = 0 ∧
    (XPD_DMA_Init g hdma Config).2.2.Base =
      hdma.InstAddr - hdma.InstAddr % 256 ∧
    (XPD_DMA_Init g hdma Config).2.2.ChannelOffset =
      DMA_CHANNEL_NUMBER hdma.InstAddr * 4 :=
  ⟨rfl, rfl, rfl, rfl, rfl, rfl⟩

/-- `XPD_DMA_Start_IT` (xpd_dma.c line 219): Start, then on success enable
the transfer-complete, half-transfer and transfer-error interrupt sources
(error detection compiled in). -/
def XPD_DMA_Start_IT (hdma : DMA_HandleType) (PeriphAddress : Nat)
    (DataStream : DataStreamType) : XPD_ReturnType × DMA_HandleType :=
  let r := XPD_DMA_Start hdma PeriphAddress DataStream
  if r.1 = OK then
    (r.1, { r.2 with Inst := { r.2.Inst with
      TCIE := true, HTIE := true, TEIE := true } })
  else r

/-- `XPD_DMA_Stop_IT` (xpd_dma.c line 258): disable the channel and clear
all interrupt-enable bits; no quiescence wait. -/
def XPD_DMA_Stop_IT (hdma : DMA_HandleType) : DMA_HandleType :=
  let h1 := XPD_DMA_Disable hdma
  { h1 with Inst := { h1.Inst with TCIE := false, HTIE := false, TEIE := false } }

/-- `XPD_DMA_GetError` (xpd_dma.c line 333): the accumulated error bitmask,
read non-destructively (a pure function of the handle). -/
def XPD_DMA_GetError (hdma : DMA_HandleType) : Nat := hdma.Errors

theorem irqHandler_errors_cases (hdma : DMA_HandleType) :
    (XPD_DMA_IRQHandler hdma).1.Errors = hdma.Errors ∨
    (XPD_DMA_IRQHandler hdma).1.Errors = hdma.Errors ||| DMA_ERROR_TRANSFER := by
  obtain ⟨ia, inst, b, co, er, cb⟩ := hdma
  obtain ⟨en, circ, htie, tcie, teie, dir, m2m, pinc, minc, pl, ps, ms,
    cndtr, cpar, cmar, fht, ftc, fte⟩ := inst
  cases fht <;> cases ftc <;> cases fte <;> cases circ <;>
    simp [XPD_DMA_IRQHandler, XPD_DMA_GetFlag, XPD_DMA_ClearFlag,
      XPD_DMA_DisableIT, XPD_SAFE_CALLBACK]

/-- C6: across every modelled operation the error bitmask only grows, and
growth happens only by OR-ing in TRANSFER_ERROR (PollStatus, interrupt
dispatch); the only reset to NONE is the Start path that successfully arms
a transfer, Start's BUSY path changing nothing; GetError reads the bitmask
without touching the handle. -/
theorem error_bitmask_append_only :
    (∀ hdma, XPD_DMA_GetError hdma = hdma.Errors) ∧
    (∀ hdma addr ds,
      ((XPD_DMA_Start hdma addr ds).1 = OK →
        (XPD_DMA_Start hdma addr ds).2.Errors = DMA_ERROR_NONE) ∧
      ((XPD_DMA_Start hdma addr ds).1 ≠ OK →
        (XPD_DMA_Start hdma addr ds).2 = hdma)) ∧
    (∀ hdma, (XPD_DMA_IRQHandler hdma).1.Errors = hdma.Errors ∨
      (XPD_DMA_IRQHandler hdma).1.Errors = hdma.Errors ||| DMA_ERROR_TRANSFER) ∧
    (∀ hdma Operation Timeout tickstart obs out,
      XPD_DMA_PollStatus hdma Operation Timeout tickstart obs = some out →
      out.Errors = hdma.Errors ∨
      out.Errors = hdma.Errors ||| DMA_ERROR_TRANSFER) ∧
    (∀ hdma readings, (XPD_DMA_Stop hdma readings).2.Errors = hdma.Errors) ∧
    (∀ hdma, (XPD_DMA_Stop_IT hdma).Errors = hdma.Errors) ∧
    (∀ hdma, (XPD_DMA_Enable hdma).Errors = hdma.Errors) ∧
    (∀ hdma, (XPD_DMA_Disable hdma).Errors = hdma.Errors) ∧
    (∀ g hdma Config, (XPD_DMA_Init g hdma Config).2.2.Errors = hdma.Errors) ∧
    (∀ g hdma, (XPD_DMA_Deinit g hdma).2.2.Errors = hdma.Errors) ∧
    (∀ hdma addr ds, (XPD_DMA_Start_IT hdma addr ds).2.Errors =
      (XPD_DMA_Start hdma addr ds).2.Errors) := by
  refine ⟨fun _ => rfl, ?_, irqHandler_errors_cases, ?_, fun _ _ => rfl,
    fun _ => rfl, fun _ => rfl, fun _ => rfl, fun _ _ _ => rfl,
    fun _ _ => rfl, ?_⟩
  · intro hdma addr ds
    unfold XPD_DMA_Start
    by_cases hc : (if addr ≠ hdma.Inst.CPAR then XPD_DMA_GetStatus hdma else OK) = OK
    · rw [if_pos hc]
      exact ⟨fun _ => rfl, fun hne => absurd rfl hne⟩
    · rw [if_neg hc]
      exact ⟨fun heq => absurd heq hc, fun _ => rfl⟩
  · intro hdma Operation Timeout tickstart obs out h
    have shape := pollLoop_outcome_shape Operation Timeout tickstart
      hdma.Errors obs out h
    by_cases he : out.result = ERROR
    · exact Or.inr (shape.1 he).1
    · exact Or.inl (shape.2.1 he)
  · intro hdma addr ds
    unfold XPD_DMA_Start_IT
    by_cases hc : (XPD_DMA_Start hdma addr ds).1 = OK
    · rw [if_pos hc]
    · rw [if_neg hc]

/-- C6 witness: a successful Start on the concrete busy channel (same
peripheral address) resets the error bitmask to NONE. -/
theorem error_bitmask_append_only_witness :
    (XPD_DMA_Start busyHandle 100 { buffer := 8, length := 4 }).2.Errors =
      DMA_ERROR_NONE :=
  (error_bitmask_append_only.2.1 busyHandle 100 { buffer := 8, length := 4 }).1
    (by decide)

end STM32XPD
